import Mathlib

/-!
Verification of the OCR monitoring scripts `ocr_alert_check.py` and
`send_ocr_monthly_report.py`.

The development shallow-embeds the data model and the pure decision /
formatting logic of the two scripts: fetched store rows become records with
optional numeric fields (a `Option.none` field models a missing or `null`
JSON value), Python numbers become rationals (`ℚ`) and integers (`ℤ`), and
the fallible configuration parsing becomes `Option`-valued functions.
Python library primitives used by the scripts (`str.replace` with a
one-character pattern, `str.split(",")`, `str.strip`, `int(...)` on a
string, `date` arithmetic) are embedded as executable character-list and
calendar functions with the library's documented semantics.
-/

namespace OcrAlert

/-- Python `x or d` on an optional numeric field: `None` and `0` are falsy,
so both a missing field and a stored `0` fall back to the default `d`.
Used for every `w.get(...) or ...` / `th.get(...) or ...` expression in
`ocr_alert_check.py`. -/
def pyOr (x : Option ℚ) (d : ℚ) : ℚ :=
  match x with
  | Option.none => d
  | Option.some v => if v = 0 then d else v

/-- Python `int(...)` on a number: truncation toward zero. -/
def pyTrunc (q : ℚ) : ℤ :=
  if 0 ≤ q then ⌊q⌋ else ⌈q⌉

/-- A row of `ocr_alert_thresholds` as fetched from the store
(`ocr_alert_check.py`, `fetch_thresholds`). Every field may be absent. -/
structure ThresholdRow where
  window_minutes : Option ℚ
  max_fail_count : Option ℚ
  max_fail_rate : Option ℚ
  quality_score_threshold : Option ℚ
  max_low_quality_rate : Option ℚ
  unknown_ratio_threshold : Option ℚ
  max_high_unknown_rate : Option ℚ
deriving DecidableEq

/-- A row of `v_ocr_alert_window` (`ocr_alert_check.py`,
`fetch_window_summary`). Every field may be absent. -/
structure WindowRow where
  window_minutes : Option ℚ
  total_count : Option ℚ
  fail_count : Option ℚ
  fail_rate : Option ℚ
  avg_quality_score : Option ℚ
  low_quality_count : Option ℚ
  low_quality_rate : Option ℚ
  high_unknown_count : Option ℚ
  high_unknown_rate : Option ℚ
deriving DecidableEq

/-- The hardcoded default thresholds of `fetch_thresholds`
(`ocr_alert_check.py` lines 52-61). -/
def defaultThresholdRow : ThresholdRow :=
  ⟨some 60, some 5, some (mkRat 20 100), some 40, some (mkRat 30 100),
    some (mkRat 50 100), some (mkRat 30 100)⟩

/-- Embedding of `fetch_thresholds` (`ocr_alert_check.py` lines 50-62), as a function of
the list of rows the store query returned: an empty result is replaced by
the hardcoded defaults, otherwise the first row is used. -/
def fetch_thresholds (rows : List ThresholdRow) : ThresholdRow :=
  match rows with
  | [] => defaultThresholdRow
  | r :: _ => r

/-- Embedding of `fetch_window_summary` (`ocr_alert_check.py` lines 65-69):
an empty result raises (`Option.none`), otherwise the first row is used. -/
def fetch_window_summary (rows : List WindowRow) : Option WindowRow :=
  rows.head?

/-- Derived value `fail_count = int(w.get("fail_count") or 0)` (`ocr_alert_check.py` 260). -/
def wFailCount (w : WindowRow) : ℤ := pyTrunc (pyOr w.fail_count 0)

/-- Derived value `total_count = int(w.get("total_count") or 0)` (`ocr_alert_check.py` 261). -/
def wTotalCount (w : WindowRow) : ℤ := pyTrunc (pyOr w.total_count 0)

/-- Derived value `fail_rate = float(w.get("fail_rate") or 0)` (`ocr_alert_check.py` 262). -/
def wFailRate (w : WindowRow) : ℚ := pyOr w.fail_rate 0

/-- Derived value `low_quality_rate = float(w.get("low_quality_rate") or 0)`
(`ocr_alert_check.py` 263). -/
def wLowQualityRate (w : WindowRow) : ℚ := pyOr w.low_quality_rate 0

/-- Derived value `high_unknown_rate = float(w.get("high_unknown_rate") or 0)`
(`ocr_alert_check.py` 264). -/
def wHighUnknownRate (w : WindowRow) : ℚ := pyOr w.high_unknown_rate 0

/-- Derived threshold `max_fail_count = int(th.get("max_fail_count") or 5)`
(`ocr_alert_check.py` 267). -/
def thMaxFailCount (th : ThresholdRow) : ℤ := pyTrunc (pyOr th.max_fail_count 5)

/-- Derived threshold `max_fail_rate = float(th.get("max_fail_rate") or 0.20)`
(`ocr_alert_check.py` 268). -/
def thMaxFailRate (th : ThresholdRow) : ℚ := pyOr th.max_fail_rate (mkRat 20 100)

/-- Derived threshold `max_low_quality_rate = float(th.get("max_low_quality_rate") or 0.30)`
(`ocr_alert_check.py` 269). -/
def thMaxLowQualityRate (th : ThresholdRow) : ℚ :=
  pyOr th.max_low_quality_rate (mkRat 30 100)

/-- Derived threshold `max_high_unknown_rate = float(th.get("max_high_unknown_rate") or 0.30)`
(`ocr_alert_check.py` 270). -/
def thMaxHighUnknownRate (th : ThresholdRow) : ℚ :=
  pyOr th.max_high_unknown_rate (mkRat 30 100)

/-- Round a rational to the nearest integer, ties to the even integer:
the rounding used by Python `format` for `:.1f` / `:.0f` (idealized to exact
rational arithmetic). -/
def roundHalfEven (q : ℚ) : ℤ :=
  let f : ℤ := ⌊q⌋
  if q - f < mkRat 1 2 then f
  else if mkRat 1 2 < q - f then f + 1
  else if f % 2 = 0 then f else f + 1

/-- Python `f"{v:.1f}"`: one decimal digit after the point. -/
def formatFixed1 (q : ℚ) : String :=
  let n : ℤ := roundHalfEven (q * 10)
  let m : ℕ := n.natAbs
  (if n < 0 then "-" else "") ++ toString (m / 10) ++ "." ++ toString (m % 10)

/-- Python `f"{v:.0f}"`: rounded to an integer. -/
def formatFixed0 (q : ℚ) : String :=
  toString (roundHalfEven q)

/-- A dynamic value handed to `_pct`: `None`, a parsable number, or a value
for which `float(...)` raises. -/
inductive PyVal where
  | none
  | num (q : ℚ)
  | unparsable
deriving DecidableEq

/-- Embedding of `_pct` (`ocr_alert_check.py` lines 109-117): `None` and any value that
`float` cannot convert render as `"未算出"`; a numeric value `x` renders as
`x * 100` with one decimal digit followed by `%`. -/
def _pct (x : PyVal) : String :=
  match x with
  | PyVal.none => "未算出"
  | PyVal.num q => formatFixed1 (q * 100) ++ "%"
  | PyVal.unparsable => "未算出"

/-- Python `to_raw.replace(";", ",")` for the one-character pattern `";"`:
every `;` becomes `,`. -/
def replaceSemiChar (c : Char) : Char :=
  if c = ';' then ',' else c

/-- Python `s.split(",")` on the character list of `s`: maximal runs
between commas, keeping empty segments (so `""` yields `[""]` and `"a,,b"`
yields `["a", "", "b"]`). -/
def splitCommaChars : List Char → List (List Char)
  | [] => [[]]
  | c :: rest =>
      let ts := splitCommaChars rest
      if c = ',' then [] :: ts
      else
        match ts with
        | [] => [[c]]
        | t :: ts' => (c :: t) :: ts'

/-- Python `s.strip()`: drop whitespace from both ends. -/
def stripChars (l : List Char) : List Char :=
  ((l.dropWhile Char.isWhitespace).reverse.dropWhile Char.isWhitespace).reverse

/-- Embedding of `_parse_recipients` (`ocr_alert_check.py` lines 79-81): replace `;` by
`,`, split on `,`, strip each part, keep the truthy (non-empty) parts. -/
def _parse_recipients (to_raw : String) : List String :=
  let parts :=
    (splitCommaChars (to_raw.data.map replaceSemiChar)).map
      (fun p => String.mk (stripChars p))
  parts.filter (fun p => decide (p ≠ ""))

/-- The environment-derived mail configuration of `ocr_alert_check.py`
(module globals, lines 16-23). -/
structure MailConfig where
  report_to : String
  report_from : String
  smtp_host : String
  smtp_port : ℤ
  smtp_user : String
  smtp_pass : String
deriving DecidableEq

/-- Observable outcome of `send_mail_smtp`: either the process dies on a
configuration check (`die` prints and exits before any SMTP traffic), or
the message is handed to the transport for the parsed recipient list. -/
inductive SendOutcome where
  | died (msg : String)
  | sent (tos : List String)
deriving DecidableEq

/-- Embedding of `send_mail_smtp` (`ocr_alert_check.py` lines 84-106) up to the SMTP
session itself: the three eager configuration checks in source order,
then the send. Python truthiness: a string is falsy iff empty, the port
integer is falsy iff `0`. -/
def send_mail_smtp (cfg : MailConfig) : SendOutcome :=
  if cfg.report_to = "" ∨ cfg.report_from = "" then
    SendOutcome.died "REPORT_TO / REPORT_FROM が未設定です（GitHub Secrets を確認）"
  else if cfg.smtp_host = "" ∨ cfg.smtp_port = 0 ∨ cfg.smtp_user = "" ∨ cfg.smtp_pass = "" then
    SendOutcome.died "SMTP_HOST/SMTP_PORT/SMTP_USER/SMTP_PASS が未設定です（GitHub Secrets を確認）"
  else
    let tos := _parse_recipients cfg.report_to
    if tos = [] then SendOutcome.died "REPORT_TO の形式が不正です（宛先が空）"
    else SendOutcome.sent tos

/-- Reason string appended when `fail_count >= max_fail_count`
(`ocr_alert_check.py` line 273). -/
def reasonFailCount (th : ThresholdRow) (w : WindowRow) : String :=
  "エラー件数が多い（" ++ (toString (wFailCount w) ++ (" 件 / 閾値 " ++
    (toString (thMaxFailCount th) ++ " 件）")))

/-- Reason string appended when the fail-rate rule fires
(`ocr_alert_check.py` line 277). -/
def reasonFailRate (th : ThresholdRow) (w : WindowRow) : String :=
  "エラー率が高い（" ++ (formatFixed1 (wFailRate w * 100) ++ ("% / 閾値 " ++
    (formatFixed0 (thMaxFailRate th * 100) ++ "%）")))

/-- Reason string appended when the low-quality-rate rule fires
(`ocr_alert_check.py` line 279). -/
def reasonLowQuality (th : ThresholdRow) (w : WindowRow) : String :=
  "低品質画像の割合が高い（" ++ (formatFixed1 (wLowQualityRate w * 100) ++ ("% / 閾値 " ++
    (formatFixed0 (thMaxLowQualityRate th * 100) ++ "%）")))

/-- Reason string appended when the high-unknown-rate rule fires
(`ocr_alert_check.py` line 281). -/
def reasonHighUnknown (th : ThresholdRow) (w : WindowRow) : String :=
  "未登録ワードの割合が高い（" ++ (formatFixed1 (wHighUnknownRate w * 100) ++ ("% / 閾値 " ++
    (formatFixed0 (thMaxHighUnknownRate th * 100) ++ "%）")))

/-- The evaluated alert state: the ordered reason list and the flag
`is_alert = len(reasons) > 0`. -/
structure AlertDecision where
  reasons : List String
  is_alert : Bool
deriving DecidableEq

/-- The alert evaluation inlined in `main` (`ocr_alert_check.py` lines
266-283): the four threshold rules in source order, the three rate rules
gated by `total_count >= 10`, then `is_alert = len(reasons) > 0`. -/
def evaluate (th : ThresholdRow) (w : WindowRow) : AlertDecision :=
  let reasons : List String :=
    (if thMaxFailCount th ≤ wFailCount w then [reasonFailCount th w] else []) ++
    ((if 10 ≤ wTotalCount w ∧ thMaxFailRate th ≤ wFailRate w then
        [reasonFailRate th w] else []) ++
    ((if 10 ≤ wTotalCount w ∧ thMaxLowQualityRate th ≤ wLowQualityRate w then
        [reasonLowQuality th w] else []) ++
    (if 10 ≤ wTotalCount w ∧ thMaxHighUnknownRate th ≤ wHighUnknownRate w then
        [reasonHighUnknown th w] else [])))
  AlertDecision.mk reasons (decide (0 < reasons.length))

/-- Whether `main` reaches `send_mail_smtp` or prints `"OK (no alert)"`. -/
inductive MainAction where
  | send
  | skip
deriving DecidableEq

/-- The send decision at the end of `main` (`ocr_alert_check.py` lines
292-297): transmit iff `is_alert or FORCE_SEND_OK`. -/
def mainSendStep (thRows : List ThresholdRow) (w : WindowRow)
    (force_send_ok : Bool) : MainAction :=
  let th := fetch_thresholds thRows
  let d := evaluate th w
  if d.is_alert || force_send_ok then MainAction.send else MainAction.skip

/-- One decimal digit of Python `int(...)` string parsing. -/
def digitVal (c : Char) : Option ℕ :=
  if '0' ≤ c ∧ c ≤ '9' then some (c.toNat - Char.toNat '0') else Option.none

/-- A non-empty all-digit character run as a number, else `Option.none`. -/
def parseDigits (ds : List Char) : Option ℕ :=
  match ds with
  | [] => Option.none
  | _ =>
      ds.foldl
        (fun acc c =>
          match acc, digitVal c with
          | some a, some d => some (a * 10 + d)
          | _, _ => Option.none)
        (some 0)

/-- Python `int(s)` on a string: surrounding whitespace allowed, optional
sign, then decimal digits; anything else raises (`Option.none`). -/
def pyIntOfString (s : String) : Option ℤ :=
  match stripChars s.data with
  | '-' :: ds => (parseDigits ds).map (fun n => -(n : ℤ))
  | '+' :: ds => (parseDigits ds).map (fun n => (n : ℤ))
  | ds => (parseDigits ds).map (fun n => (n : ℤ))

/-- Embedding of `SMTP_PORT` of `ocr_alert_check.py` line 17:
`int(os.environ.get("SMTP_PORT", "0") or 0)` as a function of the optional
environment value; the missing-variable default string is `"0"`, an empty
string falls through Python `or` to the integer `0`. -/
def alertSmtpPort (env : Option String) : Option ℤ :=
  let raw := env.getD "0"
  if raw = "" then some 0 else pyIntOfString raw

/-- Embedding of `SMTP_PORT` of `send_ocr_monthly_report.py` line 19:
`int(os.getenv("SMTP_PORT", "587"))`. -/
def monthlySmtpPort (env : Option String) : Option ℤ :=
  pyIntOfString (env.getD "587")

/-- A row of `v_ocr_high_risk_additives_daily` as selected by
`fetch_high_risk_ranking` (`send_ocr_monthly_report.py` lines 59-64). -/
structure DailyRiskRow where
  code : Option String
  name_ja : Option String
  category : Option String
  risk_level : Option ℤ
  detect_count : Option ℤ
  scan_date : String
deriving DecidableEq

/-- The grouping key `(code, name_ja, category, risk_level)`
(`send_ocr_monthly_report.py` line 68). -/
abbrev RiskKey := Option String × Option String × Option String × Option ℤ

/-- The key of one daily row. -/
def riskKey (r : DailyRiskRow) : RiskKey :=
  (r.code, r.name_ja, r.category, r.risk_level)

/-- One `agg.setdefault(key, 0); agg[key] += v` step on the dict, modelled
as an insertion-ordered association list: an existing key is updated in
place, a fresh key is appended at the end. -/
def updateAssoc : List (RiskKey × ℤ) → RiskKey → ℤ → List (RiskKey × ℤ)
  | [], k, v => [(k, v)]
  | (k', c) :: rest, k, v =>
      if k' = k then (k', c + v) :: rest
      else (k', c) :: updateAssoc rest k v

/-- The aggregation dict built by the row loop of `fetch_high_risk_ranking`
(`send_ocr_monthly_report.py` lines 66-70); `r.get("detect_count", 0)`
defaults a missing count to `0`. -/
def aggRows (rows : List DailyRiskRow) : List (RiskKey × ℤ) :=
  rows.foldl
    (fun acc r => updateAssoc acc (riskKey r) (r.detect_count.getD 0)) []

/-- One aggregated ranking entry (`send_ocr_monthly_report.py` lines 72-82). -/
structure HighRiskItem where
  code : Option String
  name_ja : Option String
  category : Option String
  risk_level : Option ℤ
  total_count : ℤ
deriving DecidableEq

/-- Descending comparison on summed counts: the order produced by
`result.sort(key=lambda x: x["total_count"], reverse=True)`. -/
def riskGE (a b : HighRiskItem) : Prop :=
  b.total_count ≤ a.total_count

instance : DecidableRel riskGE :=
  fun a b => inferInstanceAs (Decidable (b.total_count ≤ a.total_count))

instance : IsTotal HighRiskItem riskGE :=
  ⟨fun a b => le_total b.total_count a.total_count⟩

instance : IsTrans HighRiskItem riskGE :=
  ⟨fun _ _ _ h1 h2 => le_trans h2 h1⟩

/-- Embedding of `fetch_high_risk_ranking` (`send_ocr_monthly_report.py` lines 56-85)
on the fetched daily rows: group and sum by key, sort stably in descending
order of the summed count (Python `list.sort` is stable; a stable sort is
modelled by insertion sort), take the first `limit` entries. -/
def fetch_high_risk_ranking (rows : List DailyRiskRow) (limit : ℕ) :
    List HighRiskItem :=
  let result :=
    (aggRows rows).map
      (fun kc => HighRiskItem.mk kc.1.1 kc.1.2.1 kc.1.2.2.1 kc.1.2.2.2 kc.2)
  (List.insertionSort riskGE result).take limit

/-- The sum of the detect counts of the rows carrying key `k`. -/
def keySum (rows : List DailyRiskRow) (k : RiskKey) : ℤ :=
  ((rows.filter (fun r => decide (riskKey r = k))).map
    (fun r => r.detect_count.getD 0)).sum

/-- A proleptic Gregorian calendar date, as held by Python
`datetime.date`. -/
structure PDate where
  year : ℤ
  month : ℕ
  day : ℕ
deriving DecidableEq

/-- The Gregorian leap-year rule used by Python `datetime`. -/
def isLeapYear (y : ℤ) : Prop :=
  y % 4 = 0 ∧ (y % 100 ≠ 0 ∨ y % 400 = 0)

instance (y : ℤ) : Decidable (isLeapYear y) := by
  unfold isLeapYear
  infer_instance

/-- Days in a Gregorian month. -/
def daysInMonth (y : ℤ) (m : ℕ) : ℕ :=
  if m = 2 then (if isLeapYear y then 29 else 28)
  else if m = 4 ∨ m = 6 ∨ m = 9 ∨ m = 11 then 30
  else 31

/-- Python `d - timedelta(days=1)` on a calendar date. -/
def subOneDay (d : PDate) : PDate :=
  if 1 < d.day then PDate.mk d.year d.month (d.day - 1)
  else if 1 < d.month then
    PDate.mk d.year (d.month - 1) (daysInMonth d.year (d.month - 1))
  else PDate.mk (d.year - 1) 12 31

/-- Embedding of `get_last_month_range` (`send_ocr_monthly_report.py` lines 34-41) as a
function of "today": this month's first day, minus one day, then that
month's first day. -/
def get_last_month_range (today : PDate) : PDate × PDate :=
  let first_this_month := PDate.mk today.year today.month 1
  let last_month_end := subOneDay first_this_month
  let last_month_start := PDate.mk last_month_end.year last_month_end.month 1
  (last_month_start, last_month_end)

/-- The specification's wording for the monthly range: the first and last
day (inclusive) of the calendar month preceding the month of "today". -/
def lastMonthRangeSpec (today : PDate) : PDate × PDate :=
  let py := if today.month = 1 then today.year - 1 else today.year
  let pm := if today.month = 1 then 12 else today.month - 1
  (PDate.mk py pm 1, PDate.mk py pm (daysInMonth py pm))

/-! Example rows shared by the witnesses -/

/-- A tiny window: 3 runs, 6 failures, every rate at 100%. -/
def exSmallWindow : WindowRow :=
  WindowRow.mk Option.none (some 3) (some 6) (some 1) Option.none Option.none
    (some 1) Option.none (some 1)

/-- A large window: 12 runs, 6 failures, every rate at 50%. -/
def exLargeWindow : WindowRow :=
  WindowRow.mk Option.none (some 12) (some 6) (some (mkRat 1 2)) Option.none
    Option.none (some (mkRat 1 2)) Option.none (some (mkRat 1 2))

/-! The four candidate reason strings are pairwise distinct -/

theorem append_ne_of_data_get (p q t u : String) (i : ℕ)
    (hp : i < p.data.length) (hq : i < q.data.length)
    (h : p.data.get? i ≠ q.data.get? i) : p ++ t ≠ q ++ u := by
  intro e
  apply h
  have e2 : (p ++ t).data.get? i = (q ++ u).data.get? i := by rw [e]
  rwa [String.data_append, String.data_append, List.get?_append hp,
    List.get?_append hq] at e2

theorem reasonFailCount_ne_failRate (th : ThresholdRow) (w : WindowRow) :
    reasonFailCount th w ≠ reasonFailRate th w := by
  unfold reasonFailCount reasonFailRate
  exact append_ne_of_data_get _ _ _ _ 3 (by decide) (by decide) (by decide)

theorem reasonFailCount_ne_lowQuality (th : ThresholdRow) (w : WindowRow) :
    reasonFailCount th w ≠ reasonLowQuality th w := by
  unfold reasonFailCount reasonLowQuality
  exact append_ne_of_data_get _ _ _ _ 0 (by decide) (by decide) (by decide)

theorem reasonFailCount_ne_highUnknown (th : ThresholdRow) (w : WindowRow) :
    reasonFailCount th w ≠ reasonHighUnknown th w := by
  unfold reasonFailCount reasonHighUnknown
  exact append_ne_of_data_get _ _ _ _ 0 (by decide) (by decide) (by decide)

theorem reasonFailRate_ne_lowQuality (th : ThresholdRow) (w : WindowRow) :
    reasonFailRate th w ≠ reasonLowQuality th w := by
  unfold reasonFailRate reasonLowQuality
  exact append_ne_of_data_get _ _ _ _ 0 (by decide) (by decide) (by decide)

theorem reasonFailRate_ne_highUnknown (th : ThresholdRow) (w : WindowRow) :
    reasonFailRate th w ≠ reasonHighUnknown th w := by
  unfold reasonFailRate reasonHighUnknown
  exact append_ne_of_data_get _ _ _ _ 0 (by decide) (by decide) (by decide)

theorem reasonLowQuality_ne_highUnknown (th : ThresholdRow) (w : WindowRow) :
    reasonLowQuality th w ≠ reasonHighUnknown th w := by
  unfold reasonLowQuality reasonHighUnknown
  exact append_ne_of_data_get _ _ _ _ 0 (by decide) (by decide) (by decide)

/-! Membership in the reason list, rule by rule -/

theorem mem_reasons_failRate_iff (th : ThresholdRow) (w : WindowRow) :
    reasonFailRate th w ∈ (evaluate th w).reasons ↔
      (10 ≤ wTotalCount w ∧ thMaxFailRate th ≤ wFailRate w) := by
  have h1 := reasonFailCount_ne_failRate th w
  have h3 := reasonFailRate_ne_lowQuality th w
  have h4 := reasonFailRate_ne_highUnknown th w
  by_cases c1 : thMaxFailCount th ≤ wFailCount w <;>
  by_cases c2 : 10 ≤ wTotalCount w ∧ thMaxFailRate th ≤ wFailRate w <;>
  by_cases c3 : 10 ≤ wTotalCount w ∧ thMaxLowQualityRate th ≤ wLowQualityRate w <;>
  by_cases c4 : 10 ≤ wTotalCount w ∧ thMaxHighUnknownRate th ≤ wHighUnknownRate w <;>
  simp [evaluate, c1, c2, c3, c4, Ne.symm h1, h3, h4]

theorem mem_reasons_lowQuality_iff (th : ThresholdRow) (w : WindowRow) :
    reasonLowQuality th w ∈ (evaluate th w).reasons ↔
      (10 ≤ wTotalCount w ∧ thMaxLowQualityRate th ≤ wLowQualityRate w) := by
  have h1 := reasonFailCount_ne_lowQuality th w
  have h2 := reasonFailRate_ne_lowQuality th w
  have h4 := reasonLowQuality_ne_highUnknown th w
  by_cases c1 : thMaxFailCount th ≤ wFailCount w <;>
  by_cases c2 : 10 ≤ wTotalCount w ∧ thMaxFailRate th ≤ wFailRate w <;>
  by_cases c3 : 10 ≤ wTotalCount w ∧ thMaxLowQualityRate th ≤ wLowQualityRate w <;>
  by_cases c4 : 10 ≤ wTotalCount w ∧ thMaxHighUnknownRate th ≤ wHighUnknownRate w <;>
  simp [evaluate, c1, c2, c3, c4, Ne.symm h1, Ne.symm h2, h4]

theorem mem_reasons_highUnknown_iff (th : ThresholdRow) (w : WindowRow) :
    reasonHighUnknown th w ∈ (evaluate th w).reasons ↔
      (10 ≤ wTotalCount w ∧ thMaxHighUnknownRate th ≤ wHighUnknownRate w) := by
  have h1 := reasonFailCount_ne_highUnknown th w
  have h2 := reasonFailRate_ne_highUnknown th w
  have h3 := reasonLowQuality_ne_highUnknown th w
  by_cases c1 : thMaxFailCount th ≤ wFailCount w <;>
  by_cases c2 : 10 ≤ wTotalCount w ∧ thMaxFailRate th ≤ wFailRate w <;>
  by_cases c3 : 10 ≤ wTotalCount w ∧ thMaxLowQualityRate th ≤ wLowQualityRate w <;>
  by_cases c4 : 10 ≤ wTotalCount w ∧ thMaxHighUnknownRate th ≤ wHighUnknownRate w <;>
  simp [evaluate, c1, c2, c3, c4, Ne.symm h1, Ne.symm h2, Ne.symm h3]

theorem is_alert_iff_reasons_ne_nil (th : ThresholdRow) (w : WindowRow) :
    (evaluate th w).is_alert = true ↔ (evaluate th w).reasons ≠ [] := by
  have hdef : (evaluate th w).is_alert =
      decide (0 < (evaluate th w).reasons.length) := rfl
  rw [hdef, decide_eq_true_iff, List.length_pos]

/-- C1: for every window summary with `total_count < 10`, the alert
evaluation in `main` adds no reason for the three rate-based rules,
whatever the rates are: the reason list is exactly what the absolute
`fail_count >= max_fail_count` rule contributes. -/
theorem small_window_only_fail_count_rule (th : ThresholdRow) (w : WindowRow)
    (h : wTotalCount w < 10) :
    (evaluate th w).reasons =
      (if thMaxFailCount th ≤ wFailCount w then [reasonFailCount th w]
        else []) := by
  have h10 : ¬ (10 ≤ wTotalCount w) := by omega
  simp [evaluate, h10]

/-- Witness for C1, on a 3-run window with 6 failures and 100% rates:
despite the extreme rates only the `fail_count` reason appears. -/
theorem small_window_only_fail_count_rule_witness :
    wTotalCount exSmallWindow < 10 ∧
    (evaluate defaultThresholdRow exSmallWindow).reasons =
      (if thMaxFailCount defaultThresholdRow ≤ wFailCount exSmallWindow then
        [reasonFailCount defaultThresholdRow exSmallWindow] else []) :=
  ⟨by decide,
    small_window_only_fail_count_rule defaultThresholdRow exSmallWindow
      (by decide)⟩

/-- C2: for every window summary with `total_count >= 10`, each rate rule
contributes its reason iff the observed rate is `≥` its threshold (so
equality with the threshold fires the rule), and `is_alert` holds exactly
when the reason list is non-empty. -/
theorem large_window_rate_rules_iff (th : ThresholdRow) (w : WindowRow)
    (h : 10 ≤ wTotalCount w) :
    (reasonFailRate th w ∈ (evaluate th w).reasons ↔
      thMaxFailRate th ≤ wFailRate w) ∧
    (reasonLowQuality th w ∈ (evaluate th w).reasons ↔
      thMaxLowQualityRate th ≤ wLowQualityRate w) ∧
    (reasonHighUnknown th w ∈ (evaluate th w).reasons ↔
      thMaxHighUnknownRate th ≤ wHighUnknownRate w) ∧
    ((evaluate th w).is_alert = true ↔ (evaluate th w).reasons ≠ []) := by
  refine ⟨?_, ?_, ?_, is_alert_iff_reasons_ne_nil th w⟩
  · rw [mem_reasons_failRate_iff]
    simp [h]
  · rw [mem_reasons_lowQuality_iff]
    simp [h]
  · rw [mem_reasons_highUnknown_iff]
    simp [h]

/-- Witness for C2, on a 12-run window whose 50% fail rate meets the
default 20% threshold. -/
theorem large_window_rate_rules_iff_witness :
    reasonFailRate defaultThresholdRow exLargeWindow ∈
      (evaluate defaultThresholdRow exLargeWindow).reasons ↔
      thMaxFailRate defaultThresholdRow ≤ wFailRate exLargeWindow :=
  (large_window_rate_rules_iff defaultThresholdRow exLargeWindow (by decide)).1

theorem ite_sublist_singleton {α : Type} (c : Prop) [Decidable c] (a : α) :
    (if c then [a] else []).Sublist [a] := by
  split
  · exact List.Sublist.refl _
  · exact List.nil_sublist _

/-- C10: the reason list follows the fixed source order of the four rules
(`fail_count`, `fail_rate`, `low_quality_rate`, `high_unknown_rate`), each
contributing at most once, and when the `fail_count` rule fires its reason
comes first. -/
theorem reasons_follow_fixed_rule_order (th : ThresholdRow) (w : WindowRow) :
    (evaluate th w).reasons.Sublist
      [reasonFailCount th w, reasonFailRate th w, reasonLowQuality th w,
        reasonHighUnknown th w] ∧
    (evaluate th w).reasons.Nodup ∧
    (thMaxFailCount th ≤ wFailCount w →
      (evaluate th w).reasons.head? = some (reasonFailCount th w)) := by
  have hsub :
      ((if thMaxFailCount th ≤ wFailCount w then [reasonFailCount th w]
          else []) ++
       ((if 10 ≤ wTotalCount w ∧ thMaxFailRate th ≤ wFailRate w then
          [reasonFailRate th w] else []) ++
       ((if 10 ≤ wTotalCount w ∧ thMaxLowQualityRate th ≤ wLowQualityRate w
          then [reasonLowQuality th w] else []) ++
        (if 10 ≤ wTotalCount w ∧ thMaxHighUnknownRate th ≤ wHighUnknownRate w
          then [reasonHighUnknown th w] else [])))).Sublist
      ([reasonFailCount th w] ++ ([reasonFailRate th w] ++
        ([reasonLowQuality th w] ++ [reasonHighUnknown th w]))) :=
    List.Sublist.append (ite_sublist_singleton _ _)
      (List.Sublist.append (ite_sublist_singleton _ _)
        (List.Sublist.append (ite_sublist_singleton _ _)
          (ite_sublist_singleton _ _)))
  have h12 := reasonFailCount_ne_failRate th w
  have h13 := reasonFailCount_ne_lowQuality th w
  have h14 := reasonFailCount_ne_highUnknown th w
  have h23 := reasonFailRate_ne_lowQuality th w
  have h24 := reasonFailRate_ne_highUnknown th w
  have h34 := reasonLowQuality_ne_highUnknown th w
  have hnd : List.Nodup [reasonFailCount th w, reasonFailRate th w,
      reasonLowQuality th w, reasonHighUnknown th w] := by
    simp [List.nodup_cons, h12, h13, h14, h23, h24, h34]
  refine ⟨hsub, List.Nodup.sublist hsub hnd, ?_⟩
  intro hc1
  simp [evaluate, hc1]

/-- Witness for C10: on the small example window the `fail_count` rule
fires, so its reason heads the list. -/
theorem reasons_follow_fixed_rule_order_witness :
    (evaluate defaultThresholdRow exSmallWindow).reasons.head? =
      some (reasonFailCount defaultThresholdRow exSmallWindow) :=
  (reasons_follow_fixed_rule_order defaultThresholdRow exSmallWindow).2.2
    (by decide)

/-- C3: `main` attempts the send iff the evaluation raised an alert or the
`FORCE_SEND_OK` override is set. -/
theorem send_iff_alert_or_force (thRows : List ThresholdRow) (w : WindowRow)
    (force_send_ok : Bool) :
    mainSendStep thRows w force_send_ok = MainAction.send ↔
      ((evaluate (fetch_thresholds thRows) w).is_alert = true ∨
        force_send_ok = true) := by
  unfold mainSendStep
  cases hA : (evaluate (fetch_thresholds thRows) w).is_alert <;>
    cases force_send_ok <;> simp [hA]

/-- Witness for C3: the small alerting window forces a send even with the
override off, and a quiet window with the override on also sends. -/
theorem send_iff_alert_or_force_witness :
    mainSendStep [] exSmallWindow false = MainAction.send ∧
    mainSendStep [] (WindowRow.mk Option.none (some 3) (some 0) Option.none
      Option.none Option.none Option.none Option.none Option.none) true =
      MainAction.send :=
  ⟨(send_iff_alert_or_force [] exSmallWindow false).mpr (Or.inl (by decide)),
    (send_iff_alert_or_force [] _ true).mpr (Or.inr rfl)⟩

/-- C4: `_pct` renders `None` and any unparsable value as the `未算出`
marker — never as `"0.0%"` — and renders a parsable number `x` as `x * 100`
formatted to one decimal digit followed by `%`. -/
theorem pct_none_unparsable_marker (x : PyVal) :
    ((x = PyVal.none ∨ x = PyVal.unparsable) →
      (_pct x = "未算出" ∧ _pct x ≠ "0.0%")) ∧
    (∀ q : ℚ, _pct (PyVal.num q) = formatFixed1 (q * 100) ++ "%") := by
  constructor
  · rintro (rfl | rfl) <;> exact ⟨rfl, by decide⟩
  · intro q
    rfl

/-- Witness for C4 at the `None` input. -/
theorem pct_none_unparsable_marker_witness :
    _pct PyVal.none = "未算出" ∧ _pct PyVal.none ≠ "0.0%" :=
  (pct_none_unparsable_marker PyVal.none).1 (Or.inl rfl)

/-- C5: a thresholds fetch that returns zero rows yields the documented
default set, and the thresholds the evaluation then compares against are
exactly the documented values. -/
theorem fetch_thresholds_empty_defaults :
    fetch_thresholds [] = defaultThresholdRow ∧
    (fetch_thresholds []).window_minutes = some 60 ∧
    thMaxFailCount (fetch_thresholds []) = 5 ∧
    thMaxFailRate (fetch_thresholds []) = mkRat 20 100 ∧
    (fetch_thresholds []).quality_score_threshold = some 40 ∧
    thMaxLowQualityRate (fetch_thresholds []) = mkRat 30 100 ∧
    (fetch_thresholds []).unknown_ratio_threshold = some (mkRat 50 100) ∧
    thMaxHighUnknownRate (fetch_thresholds []) = mkRat 30 100 := by
  refine ⟨rfl, rfl, ?_, ?_, rfl, ?_, rfl, ?_⟩ <;> decide

/-- C6: `_parse_recipients` splits on both `,` and `;`, trims each token,
discards empty tokens — on the documented mixed example it returns exactly
the three addresses — and a configuration whose recipient string parses to
the empty list makes `send_mail_smtp` die before any send. -/
theorem parse_recipients_correct :
    (_parse_recipients "a@x.com; b@y.com ,, c@z.com" =
      ["a@x.com", "b@y.com", "c@z.com"]) ∧
    (∀ s : String, ∀ t ∈ _parse_recipients s, t ≠ "" ∧
      ∃ p ∈ splitCommaChars (s.data.map replaceSemiChar),
        t = String.mk (stripChars p)) ∧
    (∀ cfg : MailConfig, _parse_recipients cfg.report_to = [] →
      ∀ tos : List String, send_mail_smtp cfg ≠ SendOutcome.sent tos) := by
  refine ⟨by decide, ?_, ?_⟩
  · intro s t ht
    unfold _parse_recipients at ht
    rw [List.mem_filter] at ht
    obtain ⟨hmem, hne⟩ := ht
    obtain ⟨p, hp, rfl⟩ := List.mem_map.mp hmem
    exact ⟨of_decide_eq_true hne, p, hp, rfl⟩
  · intro cfg hparse tos
    unfold send_mail_smtp
    split_ifs with h1 h2
    · simp
    · simp
    · rw [hparse]
      simp

/-- Witness for C6: the first address of the mixed example is non-empty and
arises as the strip of a split segment, and an all-delimiter recipient
string dies before the send. -/
theorem parse_recipients_correct_witness :
    ("a@x.com" ≠ "" ∧
      ∃ p ∈ splitCommaChars
        (("a@x.com; b@y.com ,, c@z.com").data.map replaceSemiChar),
        "a@x.com" = String.mk (stripChars p)) ∧
    send_mail_smtp (MailConfig.mk " ; , " "me@x.com" "smtp.x.com" 587
        "user" "pw") ≠ SendOutcome.sent ["me@x.com"] :=
  ⟨parse_recipients_correct.2.1 "a@x.com; b@y.com ,, c@z.com" "a@x.com"
      (by decide),
    parse_recipients_correct.2.2 _ (by decide) _⟩

/-- C9 counterexample: with no `SMTP_PORT` in the environment the
alert-check entry point configures port `0`, not `587`. -/
theorem alert_port_default_is_zero :
    alertSmtpPort Option.none = some 0 ∧
      alertSmtpPort Option.none ≠ some 587 := by
  constructor <;> decide

/-- C9 (amended): with no `SMTP_PORT` in the environment the monthly-report
entry point defaults to port `587`, while the alert-check entry point
defaults to `0` (a falsy port, which `send_mail_smtp` then rejects as
missing configuration). -/
theorem smtp_port_defaults_by_entry_point :
    monthlySmtpPort Option.none = some 587 ∧
    alertSmtpPort Option.none = some 0 ∧
    (∀ cfg : MailConfig, cfg.smtp_port = 0 →
      ∀ tos : List String, send_mail_smtp cfg ≠ SendOutcome.sent tos) := by
  refine ⟨by decide, by decide, ?_⟩
  intro cfg hport tos
  unfold send_mail_smtp
  split_ifs with h1 h2
  · simp
  · simp
  · exact absurd (Or.inr (Or.inl hport)) h2

/-- Witness for C9 (amended), at a concrete zero-port configuration. -/
theorem smtp_port_defaults_by_entry_point_witness :
    send_mail_smtp (MailConfig.mk "a@x.com" "me@x.com" "smtp.x.com" 0
        "user" "pw") ≠ SendOutcome.sent ["a@x.com"] :=
  smtp_port_defaults_by_entry_point.2.2 _ rfl _

/-! The aggregation dict of `fetch_high_risk_ranking` -/

/-- Value lookup in the association list modelling the dict. -/
def lookupZ : List (RiskKey × ℤ) → RiskKey → Option ℤ
  | [], _ => Option.none
  | (k', c) :: rest, k => if k' = k then some c else lookupZ rest k

theorem lookupZ_updateAssoc_self (acc : List (RiskKey × ℤ)) (k : RiskKey)
    (v : ℤ) :
    lookupZ (updateAssoc acc k v) k = some ((lookupZ acc k).getD 0 + v) := by
  induction acc with
  | nil => simp [updateAssoc, lookupZ]
  | cons p rest ih =>
      obtain ⟨k', c⟩ := p
      by_cases hk : k' = k
      · simp [updateAssoc, lookupZ, hk]
      · simp [updateAssoc, lookupZ, hk, ih]

theorem lookupZ_updateAssoc_ne (acc : List (RiskKey × ℤ)) (k k' : RiskKey)
    (v : ℤ) (h : k' ≠ k) :
    lookupZ (updateAssoc acc k v) k' = lookupZ acc k' := by
  induction acc with
  | nil => simp [updateAssoc, lookupZ, Ne.symm h]
  | cons p rest ih =>
      obtain ⟨k'', c⟩ := p
      by_cases hk : k'' = k
      · subst hk
        simp [updateAssoc, lookupZ, Ne.symm h]
      · simp [updateAssoc, lookupZ, hk, ih]

theorem keySum_cons_self (r : DailyRiskRow) (rest : List DailyRiskRow) :
    keySum (r :: rest) (riskKey r) =
      r.detect_count.getD 0 + keySum rest (riskKey r) := by
  simp [keySum]

theorem keySum_cons_ne (r : DailyRiskRow) (rest : List DailyRiskRow)
    (k : RiskKey) (h : riskKey r ≠ k) :
    keySum (r :: rest) k = keySum rest k := by
  simp [keySum, h]

theorem lookupZ_foldl_some (rows : List DailyRiskRow) :
    ∀ (acc : List (RiskKey × ℤ)) (k : RiskKey) (c : ℤ),
      lookupZ acc k = some c →
      lookupZ
        (rows.foldl
          (fun a r => updateAssoc a (riskKey r) (r.detect_count.getD 0)) acc)
        k = some (c + keySum rows k) := by
  induction rows with
  | nil =>
      intro acc k c h
      simpa [keySum] using h
  | cons r rest ih =>
      intro acc k c h
      simp only [List.foldl_cons]
      by_cases hk : riskKey r = k
      · subst hk
        have h1 := lookupZ_updateAssoc_self acc (riskKey r)
          (r.detect_count.getD 0)
        rw [h] at h1
        simp only [Option.getD_some] at h1
        rw [ih _ _ _ h1, keySum_cons_self]
        congr 1
        ring
      · have h1 := lookupZ_updateAssoc_ne acc (riskKey r) k
          (r.detect_count.getD 0) (Ne.symm hk)
        rw [h] at h1
        rw [ih _ _ _ h1, keySum_cons_ne r rest k hk]

theorem lookupZ_foldl_of_none (rows : List DailyRiskRow) :
    ∀ (acc : List (RiskKey × ℤ)) (k : RiskKey) (c : ℤ),
      lookupZ acc k = Option.none →
      lookupZ
        (rows.foldl
          (fun a r => updateAssoc a (riskKey r) (r.detect_count.getD 0)) acc)
        k = some c →
      c = keySum rows k := by
  induction rows with
  | nil =>
      intro acc k c h hsome
      rw [List.foldl_nil, h] at hsome
      exact absurd hsome (by simp)
  | cons r rest ih =>
      intro acc k c h hsome
      simp only [List.foldl_cons] at hsome
      by_cases hk : riskKey r = k
      · subst hk
        have h1 := lookupZ_updateAssoc_self acc (riskKey r)
          (r.detect_count.getD 0)
        rw [h] at h1
        simp only [Option.getD_none] at h1
        rw [lookupZ_foldl_some rest _ _ _ h1] at hsome
        injection hsome with h2
        rw [keySum_cons_self]
        omega
      · have h1 := lookupZ_updateAssoc_ne acc (riskKey r) k
          (r.detect_count.getD 0) (Ne.symm hk)
        rw [h] at h1
        rw [ih _ _ _ h1 hsome, keySum_cons_ne r rest k hk]

theorem mem_keys_updateAssoc (acc : List (RiskKey × ℤ)) (k a : RiskKey)
    (v : ℤ) (h : a ∈ (updateAssoc acc k v).map Prod.fst) :
    a ∈ acc.map Prod.fst ∨ a = k := by
  induction acc with
  | nil =>
      simp [updateAssoc] at h
      exact Or.inr h
  | cons p rest ih =>
      obtain ⟨k', c⟩ := p
      by_cases hk : k' = k
      · simp only [updateAssoc, if_pos hk, List.map_cons] at h
        exact Or.inl (by simpa using h)
      · simp only [updateAssoc, if_neg hk, List.map_cons, List.mem_cons] at h
        rcases h with h | h
        · exact Or.inl (by simp [h])
        · rcases ih h with h2 | h2
          · exact Or.inl (by simp [h2])
          · exact Or.inr h2

theorem nodup_keys_updateAssoc (acc : List (RiskKey × ℤ)) (k : RiskKey)
    (v : ℤ) (h : (acc.map Prod.fst).Nodup) :
    ((updateAssoc acc k v).map Prod.fst).Nodup := by
  induction acc with
  | nil => simp [updateAssoc]
  | cons p rest ih =>
      obtain ⟨k', c⟩ := p
      simp only [List.map_cons, List.nodup_cons] at h
      by_cases hk : k' = k
      · simp only [updateAssoc, if_pos hk, List.map_cons, List.nodup_cons]
        exact h
      · simp only [updateAssoc, if_neg hk, List.map_cons, List.nodup_cons]
        refine ⟨?_, ih h.2⟩
        intro hmem
        rcases mem_keys_updateAssoc rest k k' v hmem with h2 | h2
        · exact h.1 h2
        · exact hk h2

theorem nodup_keys_foldl (rows : List DailyRiskRow) :
    ∀ acc : List (RiskKey × ℤ), (acc.map Prod.fst).Nodup →
      ((rows.foldl
          (fun a r => updateAssoc a (riskKey r) (r.detect_count.getD 0))
          acc).map Prod.fst).Nodup := by
  induction rows with
  | nil =>
      intro acc h
      simpa using h
  | cons r rest ih =>
      intro acc h
      simp only [List.foldl_cons]
      exact ih _ (nodup_keys_updateAssoc acc (riskKey r)
        (r.detect_count.getD 0) h)

theorem lookupZ_of_mem (acc : List (RiskKey × ℤ))
    (hnd : (acc.map Prod.fst).Nodup) :
    ∀ (k : RiskKey) (c : ℤ), (k, c) ∈ acc → lookupZ acc k = some c := by
  induction acc with
  | nil => simp
  | cons p rest ih =>
      obtain ⟨k', c'⟩ := p
      intro k c hm
      simp only [List.map_cons, List.nodup_cons] at hnd
      rcases List.mem_cons.mp hm with h | h
      · injection h with h1 h2
        subst h1
        subst h2
        simp [lookupZ]
      · have hk : k' ≠ k := by
          intro e
          subst e
          exact hnd.1 (by simpa using List.mem_map_of_mem Prod.fst h)
        simp only [lookupZ, if_neg hk]
        exact ih hnd.2 k c h

theorem aggRows_entry_eq_keySum (rows : List DailyRiskRow) :
    ∀ p ∈ aggRows rows, p.2 = keySum rows p.1 := by
  intro p hp
  obtain ⟨k, c⟩ := p
  have hnd : ((aggRows rows).map Prod.fst).Nodup := by
    unfold aggRows
    exact nodup_keys_foldl rows [] (by simp)
  have hl : lookupZ (aggRows rows) k = some c :=
    lookupZ_of_mem _ hnd k c hp
  unfold aggRows at hl
  exact lookupZ_foldl_of_none rows [] k c rfl hl

/-- C7: `fetch_high_risk_ranking` returns at most the top 5 entries, in
descending order of summed count; every returned entry's `total_count` is
the sum of `detect_count` over the daily rows sharing its identity key; in
particular two rows for code `A` with counts 3 and 5 and identical
name/category/risk yield the single entry `A` with `total_count = 8`. -/
theorem high_risk_ranking_correct (rows : List DailyRiskRow) :
    (fetch_high_risk_ranking rows 5).length ≤ 5 ∧
    List.Sorted riskGE (fetch_high_risk_ranking rows 5) ∧
    (∀ e ∈ fetch_high_risk_ranking rows 5,
      e.total_count = keySum rows (e.code, e.name_ja, e.category,
        e.risk_level)) ∧
    fetch_high_risk_ranking
      [DailyRiskRow.mk (some "A") (some "nameA") (some "cat") (some 3)
          (some 3) "d1",
        DailyRiskRow.mk (some "A") (some "nameA") (some "cat") (some 3)
          (some 5) "d2"] 5
      = [HighRiskItem.mk (some "A") (some "nameA") (some "cat") (some 3) 8] := by
  refine ⟨?_, ?_, ?_, by decide⟩
  · unfold fetch_high_risk_ranking
    simp [List.length_take]
  · unfold fetch_high_risk_ranking
    exact List.Pairwise.sublist (List.take_sublist _ _)
      (List.sorted_insertionSort riskGE _)
  · intro e he
    unfold fetch_high_risk_ranking at he
    have h1 := (List.take_sublist 5 _).mem he
    rw [List.mem_insertionSort] at h1
    obtain ⟨kc, hkc, rfl⟩ := List.mem_map.mp h1
    exact aggRows_entry_eq_keySum rows kc hkc

/-- Witness for C7: the aggregated count of the `A` entry equals the key
sum over the two daily rows. -/
theorem high_risk_ranking_correct_witness :
    (HighRiskItem.mk (some "A") (some "nameA") (some "cat") (some 3)
        8).total_count =
      keySum
        [DailyRiskRow.mk (some "A") (some "nameA") (some "cat") (some 3)
            (some 3) "d1",
          DailyRiskRow.mk (some "A") (some "nameA") (some "cat") (some 3)
            (some 5) "d2"]
        ((some "A" : Option String), (some "nameA" : Option String),
          (some "cat" : Option String), (some 3 : Option ℤ)) :=
  (high_risk_ranking_correct _).2.2.1 _ (by decide)

/-- C8: for every valid "today", `get_last_month_range` returns the first
and last day (inclusive) of the previous calendar month; in particular from
2024-03-15 it returns 2024-02-01 through 2024-02-29, handling the leap
year. -/
theorem get_last_month_range_correct (today : PDate)
    (h1 : 1 ≤ today.month) (h2 : today.month ≤ 12) :
    get_last_month_range today = lastMonthRangeSpec today ∧
    get_last_month_range (PDate.mk 2024 3 15) =
      (PDate.mk 2024 2 1, PDate.mk 2024 2 29) := by
  refine ⟨?_, by decide⟩
  unfold get_last_month_range lastMonthRangeSpec subOneDay
  by_cases hm : today.month = 1
  · simp [hm, daysInMonth]
  · have hgt : 1 < today.month := by omega
    simp [hm, hgt]

/-- Witness for C8 at the leap-year example date. -/
theorem get_last_month_range_correct_witness :
    get_last_month_range (PDate.mk 2024 3 15) =
      lastMonthRangeSpec (PDate.mk 2024 3 15) :=
  (get_last_month_range_correct (PDate.mk 2024 3 15) (by decide)
    (by decide)).1

end OcrAlert
